import Mathlib

/-!
Shallow embedding of the `shout` CLI (package `main`, file `main.go`):
the Bluesky session lifecycle and the resilient post layer.

Network exchanges are modelled by oracles: each HTTP call made by the
program consumes the head of a list of prepared wire outcomes (a response
with status code and body, or a transport error).  The on-disk config file
`~/.config/shout/config.json` is modelled as an `Option Config` (absent or
present); JSON encode/decode of the `Config` record is lossless in the Go
code (matching struct tags), so `SaveConfig`/`LoadConfig` act as store
writers/readers of the structured value.  Every network call, refresh
call and store write the program performs is recorded in an event trace.
-/

set_option autoImplicit false

/-- Maximum character count allowed for Bluesky posts
(`const BlueskeyCharacterLimit = 300`, the source's spelling). -/
def BlueskeyCharacterLimit : Nat := 300

/-- `BlueskySession` holds Bluesky session information (main.go lines 27-32). -/
structure BlueskySession where
  accessJwt : String
  refreshJwt : String
  handle : String
  did : String
  deriving DecidableEq, Repr

/-- `Config` holds the authentication tokens (main.go lines 22-24). -/
structure Config where
  blueskySession : BlueskySession
  deriving DecidableEq, Repr

/-- `BlueskyAuthResponse` is the Go struct the program decodes auth/refresh
responses into (main.go lines 35-39).  Note: it has fields for
`accessJwt`, `refreshJwt` and `did` only — a server-declared `handle`
field in the JSON is dropped by the decoder. -/
structure BlueskyAuthResponse where
  accessJwt : String
  refreshJwt : String
  did : String
  deriving DecidableEq, Repr

/-- The wire-level body of a `createSession` response as the server sends
it: the AT protocol may also declare the account's canonical `handle`.
The Go struct `BlueskyAuthResponse` has no field for it. -/
structure WireAuthBody where
  accessJwt : String
  refreshJwt : String
  did : String
  handle : Option String
  deriving DecidableEq, Repr

/-- Go's `json.Decode` into `BlueskyAuthResponse` ignores JSON fields the
struct does not declare, so the server's `handle` (if any) is dropped. -/
def decodeBlueskyAuthResponse (w : WireAuthBody) : BlueskyAuthResponse :=
  { accessJwt := w.accessJwt, refreshJwt := w.refreshJwt, did := w.did }

/-- Outcome of one `createRecord` HTTP exchange as seen by the client:
either a response with a status code and body, or a transport error
(`client.Do` returning a non-nil `err`). -/
inductive PostWire where
  | http (status : Nat) (body : String)
  | netErr (msg : String)
  deriving DecidableEq, Repr

/-- Outcome of one `refreshSession` HTTP exchange.  On a 200 response the
body is decoded into `BlueskyAuthResponse`; `decoded = none` models a body
that fails to decode. -/
inductive RefreshWire where
  | http (status : Nat) (body : String) (decoded : Option BlueskyAuthResponse)
  | netErr (msg : String)
  deriving DecidableEq, Repr

/-- Outcome of one `createSession` HTTP exchange. -/
inductive AuthWire where
  | http (status : Nat) (body : String) (decoded : Option WireAuthBody)
  | netErr (msg : String)
  deriving DecidableEq, Repr

/-- The distinct error returns of `refreshBlueskyToken` (main.go 149-175). -/
inductive RefreshErr where
  | requestFailed (msg : String)
  | badStatus (status : Nat) (body : String)
  | decodeFailed
  deriving DecidableEq, Repr

/-- The distinct error returns of `authenticateWithCredentials`
(main.go 112-147). -/
inductive AuthErr where
  | requestFailed (msg : String)
  | badStatus (status : Nat) (body : String)
  | decodeFailed
  deriving DecidableEq, Repr

/-- The observable events of a run: each `createRecord` submission (with
the bearer token it carries), each `refreshSession` call (with the refresh
token it carries), each `SaveConfig` write attempt (with the record being
written), and each `createSession` credential exchange. -/
inductive Event where
  | submit (token : String)
  | refreshCall (refreshJwt : String)
  | saveCall (config : Config)
  | authCall (identifier : String)
  deriving DecidableEq, Repr

/-- The distinct returns of `PostToBluesky` (main.go 233-314), one
constructor per `return` site. -/
inductive PostResult where
  | ok
  | tooLong (excess : Nat) (count : Nat)
  | notAuthenticated
  | postRequestFailed (msg : String)
  | refreshFailed (e : RefreshErr)
  | saveFailed
  | noRefreshToken
  | remoteRejected (status : Nat) (body : String)
  deriving DecidableEq, Repr

/-- The distinct returns of `authenticateBluesky` (main.go 177-231). -/
inductive AuthResult where
  | ok
  | promptFailed (msg : String)
  | authFailed (e : AuthErr)
  | saveFailed
  deriving DecidableEq, Repr

/-- `LoadConfig` (main.go 40-66): reading an absent config file yields the
zero-value `&Config{}` (all fields empty strings); a present file decodes
to the stored record. -/
def LoadConfig (store : Option Config) : Config :=
  match store with
  | none =>
      { blueskySession := { accessJwt := "", refreshJwt := "", handle := "", did := "" } }
  | some c => c

/-- `SaveConfig` (main.go 68-90): marshals the record and writes the
config file unconditionally.  `failWrite` models `os.WriteFile` failing;
on success the store holds exactly the written record. -/
def SaveConfig (config : Config) (failWrite : Bool) (store : Option Config) :
    Except String (Option Config) :=
  if failWrite then Except.error "failed to write config file"
  else Except.ok (some config)

/-- `refreshBlueskyToken` (main.go 149-175): POST to `refreshSession` with
the refresh token as bearer; non-200 fails with status and body; a 200
body that does not decode fails; otherwise the decoded token pair is
returned.  `refreshJwt` is the bearer credential the request carries. -/
def refreshBlueskyToken (refreshJwt : String) (wire : RefreshWire) :
    Except RefreshErr BlueskyAuthResponse :=
  match wire with
  | RefreshWire.netErr m => Except.error (RefreshErr.requestFailed m)
  | RefreshWire.http status body decoded =>
      if status ≠ 200 then Except.error (RefreshErr.badStatus status body)
      else
        match decoded with
        | none => Except.error RefreshErr.decodeFailed
        | some r => Except.ok r

/-- `authenticateWithCredentials` (main.go 112-147): POST to
`createSession` with `{identifier, password}`; non-200 fails with status
and body; a 200 body that does not decode fails; otherwise the body is
decoded into `BlueskyAuthResponse` (dropping any server-declared handle). -/
def authenticateWithCredentials (identifier appPassword : String) (wire : AuthWire) :
    Except AuthErr BlueskyAuthResponse :=
  match wire with
  | AuthWire.netErr m => Except.error (AuthErr.requestFailed m)
  | AuthWire.http status body decoded =>
      if status ≠ 200 then Except.error (AuthErr.badStatus status body)
      else
        match decoded with
        | none => Except.error AuthErr.decodeFailed
        | some w => Except.ok (decodeBlueskyAuthResponse w)

/-- The in-place token replacement of main.go lines 190-191 and 292-293:
both tokens are replaced, `handle` and `did` are kept. -/
def refreshedConfig (config : Config) (auth : BlueskyAuthResponse) : Config :=
  { blueskySession :=
    { config.blueskySession with
        accessJwt := auth.accessJwt, refreshJwt := auth.refreshJwt } }

/-- The session record built after a credential exchange (main.go
lines 218-223): tokens and `did` from the response, `Handle` set to the
locally supplied identifier. -/
def newSessionConfig (identifier : String) (auth : BlueskyAuthResponse) : Config :=
  { blueskySession :=
    { accessJwt := auth.accessJwt, refreshJwt := auth.refreshJwt,
      handle := identifier, did := auth.did } }

/-- Outcome of one round of `PostToBluesky`'s body: either the round
reaches a `return` statement (`done`), or it reaches the self-call at
line 301 (`retry`), carrying the store written by the preceding
`SaveConfig` and the events of the round. -/
inductive StepOut where
  | done (result : PostResult) (store : Option Config) (events : List Event)
  | retry (store : Option Config) (events : List Event)
  deriving DecidableEq, Repr

/-- One round of `PostToBluesky` (main.go 233-314), everything except the
recursive self-call at line 301: validation, config load, auth check, one
`createRecord` submission (`pwHead`, with `none` modelling transport
failure / an unreachable server), the 401 refresh-and-persist handling
(`rwHead` the prepared refresh exchange outcome, `sfHead` whether the
config write fails), and status classification. -/
def postStep (message : String) (store : Option Config) (pwHead : Option PostWire)
    (rwHead : RefreshWire) (sfHead : Bool) : StepOut :=
  -- lines 235-241: rune-count validation, before any I/O
  if BlueskeyCharacterLimit < message.length then
    StepOut.done
      (PostResult.tooLong (message.length - BlueskeyCharacterLimit) message.length)
      store []
  else
    -- lines 243-246: load config
    let config := LoadConfig store
    -- lines 248-250: require an access token
    if config.blueskySession.accessJwt = "" then
      StepOut.done PostResult.notAuthenticated store []
    else
      -- lines 253-277: submit createRecord with the access token as bearer
      let submitEv := Event.submit config.blueskySession.accessJwt
      match pwHead with
      | none =>
          StepOut.done (PostResult.postRequestFailed "no response") store [submitEv]
      | some (PostWire.netErr m) =>
          StepOut.done (PostResult.postRequestFailed m) store [submitEv]
      | some (PostWire.http status body) =>
          -- lines 281-305: 401 handling
          if status = 401 then
            if config.blueskySession.refreshJwt = "" then
              -- line 304: no refresh token available
              StepOut.done PostResult.noRefreshToken store [submitEv]
            else
              let refreshEv := Event.refreshCall config.blueskySession.refreshJwt
              match refreshBlueskyToken config.blueskySession.refreshJwt rwHead with
              | Except.error e =>
                  -- lines 287-289: refresh failed, surface it
                  StepOut.done (PostResult.refreshFailed e) store [submitEv, refreshEv]
              | Except.ok auth =>
                  -- lines 292-293: replace both tokens in the record
                  let config' := refreshedConfig config auth
                  let saveEv := Event.saveCall config'
                  -- lines 296-298: persist before retrying
                  match SaveConfig config' sfHead store with
                  | Except.error _ =>
                      StepOut.done PostResult.saveFailed store [submitEv, refreshEv, saveEv]
                  | Except.ok store' =>
                      -- line 301: retry by self-call
                      StepOut.retry store' [submitEv, refreshEv, saveEv]
          -- lines 307-310: any other non-200 status is rejected, no retry
          else if status ≠ 200 then
            StepOut.done (PostResult.remoteRejected status body) store [submitEv]
          else
            -- lines 312-313: success
            StepOut.done PostResult.ok store [submitEv]

/-- `PostToBluesky` (main.go 233-314).

Arguments beyond the message are the modelled environment: the config
store, the oracle of `createRecord` outcomes (consumed one per
submission), the oracle of `refreshSession` outcomes, and the oracle of
`SaveConfig` write failures.  Returns the result, the final store, and
the event trace.

Each round of the source's body is `postStep`; the source's 401 branch,
after a successful refresh and save, retries by calling
`PostToBluesky(message)` recursively (line 301), realized here by the
recursive call on the remaining oracles.  The recursion terminates
because each round consumes one prepared `PostWire` outcome (an
exhausted oracle behaves as a transport error, as an unreachable server
would, and a transport error ends the round). -/
def PostToBluesky (message : String) : Option Config → List PostWire →
    List RefreshWire → List Bool → PostResult × Option Config × List Event
  | store, [], refreshWire, saveFailures =>
      match postStep message store none (refreshWire.headD (RefreshWire.netErr "no response"))
          (saveFailures.headD false) with
      | StepOut.done r st evs => (r, st, evs)
      | StepOut.retry st evs =>
          -- unreachable: with no submission outcome the round cannot reach line 301
          (PostResult.postRequestFailed "no response", st, evs)
  | store, p :: pwRest, refreshWire, saveFailures =>
      match postStep message store (some p)
          (refreshWire.headD (RefreshWire.netErr "no response"))
          (saveFailures.headD false) with
      | StepOut.done r st evs => (r, st, evs)
      | StepOut.retry st evs =>
          let cont := PostToBluesky message st pwRest refreshWire.tail saveFailures.tail
          (cont.1, cont.2.1, evs ++ cont.2.2)

/-- The credential-prompt-and-exchange tail of `authenticateBluesky`
(main.go 202-231): prompt for credentials, exchange them, persist the new
session with `Handle` set to the locally supplied identifier.
`events` carries the trace accumulated before this point. -/
def authenticateWithPrompt (store : Option Config)
    (promptResult : Except String (String × String))
    (authWire : List AuthWire) (saveFailures : List Bool)
    (events : List Event) : AuthResult × Option Config × List Event :=
  match promptResult with
  | Except.error m => (AuthResult.promptFailed m, store, events)
  | Except.ok (identifier, appPassword) =>
      let authEv := Event.authCall identifier
      match authenticateWithCredentials identifier appPassword
          (authWire.headD (AuthWire.netErr "no response")) with
      | Except.error e => (AuthResult.authFailed e, store, events ++ [authEv])
      | Except.ok authResult =>
          -- lines 218-223: build the session; Handle := identifier
          let config' := newSessionConfig identifier authResult
          let saveEv := Event.saveCall config'
          match SaveConfig config' (saveFailures.headD false) store with
          | Except.error _ => (AuthResult.saveFailed, store, events ++ [authEv, saveEv])
          | Except.ok store' => (AuthResult.ok, store', events ++ [authEv, saveEv])

/-- `authenticateBluesky` (main.go 177-231): if a refresh token is stored,
try the refresh exchange first; on success replace both tokens and
persist; on refresh failure fall through to prompting for credentials. -/
def authenticateBluesky (store : Option Config)
    (refreshWire : List RefreshWire)
    (promptResult : Except String (String × String))
    (authWire : List AuthWire) (saveFailures : List Bool) :
    AuthResult × Option Config × List Event :=
  let config := LoadConfig store
  if config.blueskySession.refreshJwt = "" then
    authenticateWithPrompt store promptResult authWire saveFailures []
  else
    let refreshEv := Event.refreshCall config.blueskySession.refreshJwt
    match refreshBlueskyToken config.blueskySession.refreshJwt
        (refreshWire.headD (RefreshWire.netErr "no response")) with
    | Except.ok auth =>
        -- lines 190-198: refreshed tokens, persist, done
        let config' := refreshedConfig config auth
        let saveEv := Event.saveCall config'
        match SaveConfig config' (saveFailures.headD false) store with
        | Except.error _ => (AuthResult.saveFailed, store, [refreshEv, saveEv])
        | Except.ok store' => (AuthResult.ok, store', [refreshEv, saveEv])
    | Except.error _ =>
        -- line 202: refresh failed, fall back to credentials
        authenticateWithPrompt store promptResult authWire saveFailures [refreshEv]

/-- Number of `createRecord` submissions in a trace. -/
def countSubmits (events : List Event) : Nat :=
  (events.filter fun e =>
    match e with
    | Event.submit _ => true
    | _ => false).length

/-- Number of `refreshSession` calls in a trace. -/
def countRefreshCalls (events : List Event) : Nat :=
  (events.filter fun e =>
    match e with
    | Event.refreshCall _ => true
    | _ => false).length

/-- Number of `SaveConfig` write attempts in a trace. -/
def countSaveCalls (events : List Event) : Nat :=
  (events.filter fun e =>
    match e with
    | Event.saveCall _ => true
    | _ => false).length

/-- Number of `createSession` credential exchanges in a trace. -/
def countAuthCalls (events : List Event) : Nat :=
  (events.filter fun e =>
    match e with
    | Event.authCall _ => true
    | _ => false).length

/-! ### Unfolding lemmas for `postStep` and `PostToBluesky` -/

theorem postStep_tooLong (message : String) (store : Option Config)
    (pwHead : Option PostWire) (rwHead : RefreshWire) (sfHead : Bool)
    (h : BlueskeyCharacterLimit < message.length) :
    postStep message store pwHead rwHead sfHead =
      StepOut.done
        (PostResult.tooLong (message.length - BlueskeyCharacterLimit) message.length)
        store [] := by
  simp [postStep, h]

theorem postStep_notAuthenticated (message : String) (store : Option Config)
    (pwHead : Option PostWire) (rwHead : RefreshWire) (sfHead : Bool)
    (hlen : message.length ≤ BlueskeyCharacterLimit)
    (hacc : (LoadConfig store).blueskySession.accessJwt = "") :
    postStep message store pwHead rwHead sfHead =
      StepOut.done PostResult.notAuthenticated store [] := by
  simp [postStep, Nat.not_lt.mpr hlen, hacc]

theorem postStep_noResponse (message : String) (store : Option Config)
    (rwHead : RefreshWire) (sfHead : Bool)
    (hlen : message.length ≤ BlueskeyCharacterLimit)
    (hacc : (LoadConfig store).blueskySession.accessJwt ≠ "") :
    postStep message store none rwHead sfHead =
      StepOut.done (PostResult.postRequestFailed "no response") store
        [Event.submit (LoadConfig store).blueskySession.accessJwt] := by
  simp [postStep, Nat.not_lt.mpr hlen, hacc]

theorem postStep_netErr (message : String) (store : Option Config)
    (m : String) (rwHead : RefreshWire) (sfHead : Bool)
    (hlen : message.length ≤ BlueskeyCharacterLimit)
    (hacc : (LoadConfig store).blueskySession.accessJwt ≠ "") :
    postStep message store (some (PostWire.netErr m)) rwHead sfHead =
      StepOut.done (PostResult.postRequestFailed m) store
        [Event.submit (LoadConfig store).blueskySession.accessJwt] := by
  simp [postStep, Nat.not_lt.mpr hlen, hacc]

theorem postStep_success (message : String) (store : Option Config)
    (body : String) (rwHead : RefreshWire) (sfHead : Bool)
    (hlen : message.length ≤ BlueskeyCharacterLimit)
    (hacc : (LoadConfig store).blueskySession.accessJwt ≠ "") :
    postStep message store (some (PostWire.http 200 body)) rwHead sfHead =
      StepOut.done PostResult.ok store
        [Event.submit (LoadConfig store).blueskySession.accessJwt] := by
  simp [postStep, Nat.not_lt.mpr hlen, hacc]

theorem postStep_rejected (message : String) (store : Option Config)
    (status : Nat) (body : String) (rwHead : RefreshWire) (sfHead : Bool)
    (hlen : message.length ≤ BlueskeyCharacterLimit)
    (hacc : (LoadConfig store).blueskySession.accessJwt ≠ "")
    (h401 : status ≠ 401) (h200 : status ≠ 200) :
    postStep message store (some (PostWire.http status body)) rwHead sfHead =
      StepOut.done (PostResult.remoteRejected status body) store
        [Event.submit (LoadConfig store).blueskySession.accessJwt] := by
  simp [postStep, Nat.not_lt.mpr hlen, hacc, h401, h200]

theorem postStep_401_noRefreshToken (message : String) (store : Option Config)
    (body : String) (rwHead : RefreshWire) (sfHead : Bool)
    (hlen : message.length ≤ BlueskeyCharacterLimit)
    (hacc : (LoadConfig store).blueskySession.accessJwt ≠ "")
    (href : (LoadConfig store).blueskySession.refreshJwt = "") :
    postStep message store (some (PostWire.http 401 body)) rwHead sfHead =
      StepOut.done PostResult.noRefreshToken store
        [Event.submit (LoadConfig store).blueskySession.accessJwt] := by
  simp [postStep, Nat.not_lt.mpr hlen, hacc, href]

theorem postStep_401_refreshErr (message : String) (store : Option Config)
    (body : String) (rwHead : RefreshWire) (sfHead : Bool) (e : RefreshErr)
    (hlen : message.length ≤ BlueskeyCharacterLimit)
    (hacc : (LoadConfig store).blueskySession.accessJwt ≠ "")
    (href : (LoadConfig store).blueskySession.refreshJwt ≠ "")
    (hr : refreshBlueskyToken (LoadConfig store).blueskySession.refreshJwt rwHead =
      Except.error e) :
    postStep message store (some (PostWire.http 401 body)) rwHead sfHead =
      StepOut.done (PostResult.refreshFailed e) store
        [Event.submit (LoadConfig store).blueskySession.accessJwt,
         Event.refreshCall (LoadConfig store).blueskySession.refreshJwt] := by
  simp [postStep, Nat.not_lt.mpr hlen, hacc, href, hr]

theorem postStep_401_refreshOk_saveFail (message : String) (store : Option Config)
    (body : String) (rwHead : RefreshWire) (auth : BlueskyAuthResponse)
    (hlen : message.length ≤ BlueskeyCharacterLimit)
    (hacc : (LoadConfig store).blueskySession.accessJwt ≠ "")
    (href : (LoadConfig store).blueskySession.refreshJwt ≠ "")
    (hr : refreshBlueskyToken (LoadConfig store).blueskySession.refreshJwt rwHead =
      Except.ok auth) :
    postStep message store (some (PostWire.http 401 body)) rwHead true =
      StepOut.done PostResult.saveFailed store
        [Event.submit (LoadConfig store).blueskySession.accessJwt,
         Event.refreshCall (LoadConfig store).blueskySession.refreshJwt,
         Event.saveCall (refreshedConfig (LoadConfig store) auth)] := by
  simp [postStep, Nat.not_lt.mpr hlen, hacc, href, hr, SaveConfig]

theorem postStep_401_refreshOk_saveOk (message : String) (store : Option Config)
    (body : String) (rwHead : RefreshWire) (auth : BlueskyAuthResponse)
    (hlen : message.length ≤ BlueskeyCharacterLimit)
    (hacc : (LoadConfig store).blueskySession.accessJwt ≠ "")
    (href : (LoadConfig store).blueskySession.refreshJwt ≠ "")
    (hr : refreshBlueskyToken (LoadConfig store).blueskySession.refreshJwt rwHead =
      Except.ok auth) :
    postStep message store (some (PostWire.http 401 body)) rwHead false =
      StepOut.retry (some (refreshedConfig (LoadConfig store) auth))
        [Event.submit (LoadConfig store).blueskySession.accessJwt,
         Event.refreshCall (LoadConfig store).blueskySession.refreshJwt,
         Event.saveCall (refreshedConfig (LoadConfig store) auth)] := by
  simp [postStep, Nat.not_lt.mpr hlen, hacc, href, hr, SaveConfig]

theorem PostToBluesky_nil_done (message : String) (store : Option Config)
    (rw : List RefreshWire) (sf : List Bool)
    (r : PostResult) (st : Option Config) (evs : List Event)
    (h : postStep message store none (rw.headD (RefreshWire.netErr "no response"))
        (sf.headD false) = StepOut.done r st evs) :
    PostToBluesky message store [] rw sf = (r, st, evs) := by
  rw [PostToBluesky, h]

theorem PostToBluesky_cons_done (message : String) (store : Option Config)
    (p : PostWire) (pwRest : List PostWire) (rw : List RefreshWire) (sf : List Bool)
    (r : PostResult) (st : Option Config) (evs : List Event)
    (h : postStep message store (some p) (rw.headD (RefreshWire.netErr "no response"))
        (sf.headD false) = StepOut.done r st evs) :
    PostToBluesky message store (p :: pwRest) rw sf = (r, st, evs) := by
  rw [PostToBluesky, h]

theorem PostToBluesky_cons_retry (message : String) (store : Option Config)
    (p : PostWire) (pwRest : List PostWire) (rw : List RefreshWire) (sf : List Bool)
    (st : Option Config) (evs : List Event)
    (h : postStep message store (some p) (rw.headD (RefreshWire.netErr "no response"))
        (sf.headD false) = StepOut.retry st evs) :
    PostToBluesky message store (p :: pwRest) rw sf =
      ((PostToBluesky message st pwRest rw.tail sf.tail).1,
       (PostToBluesky message st pwRest rw.tail sf.tail).2.1,
       evs ++ (PostToBluesky message st pwRest rw.tail sf.tail).2.2) := by
  rw [PostToBluesky, h]

/-! ### General facts about the post path -/

/-- An over-long message short-circuits every run: the too-long error is
returned with the store untouched and an empty trace, whatever the store
and the oracles hold. -/
theorem PostToBluesky_tooLong (message : String) (store : Option Config)
    (pw : List PostWire) (rw : List RefreshWire) (sf : List Bool)
    (h : BlueskeyCharacterLimit < message.length) :
    PostToBluesky message store pw rw sf =
      (PostResult.tooLong (message.length - BlueskeyCharacterLimit) message.length,
        store, []) := by
  match pw with
  | [] => rw [PostToBluesky, postStep_tooLong _ _ _ _ _ h]
  | p :: rest => rw [PostToBluesky, postStep_tooLong _ _ _ _ _ h]

/-- A message within the limit never produces the too-long error, on any
store and any oracles (the recursion re-validates the same message). -/
theorem PostToBluesky_ne_tooLong (message : String)
    (h : message.length ≤ BlueskeyCharacterLimit) :
    ∀ (pw : List PostWire) (store : Option Config) (rw : List RefreshWire)
      (sf : List Bool) (e c : Nat),
      (PostToBluesky message store pw rw sf).1 ≠ PostResult.tooLong e c := by
  have hstep : ∀ (store : Option Config) (pwHead : Option PostWire)
      (rwHead : RefreshWire) (sfHead : Bool) (r : PostResult)
      (st : Option Config) (evs : List Event),
      postStep message store pwHead rwHead sfHead = StepOut.done r st evs →
      ∀ e c, r ≠ PostResult.tooLong e c := by
    intro store pwHead rwHead sfHead r st evs hdone e c
    revert hdone
    simp only [postStep, Nat.not_lt.mpr h, if_false]
    split
    · intro hd; cases hd; simp
    · match pwHead with
      | none => intro hd; cases hd; simp
      | some (PostWire.netErr m) => intro hd; cases hd; simp
      | some (PostWire.http status body) =>
          simp only []
          split
          · split
            · intro hd; cases hd; simp
            · split
              · intro hd; cases hd; simp
              · split
                · intro hd; cases hd; simp
                · intro hd; cases hd
          · split
            · intro hd; cases hd; simp
            · intro hd; cases hd; simp
  intro pw
  induction pw with
  | nil =>
      intro store rw sf e c
      rw [PostToBluesky]
      split
      · exact fun hc => hstep _ _ _ _ _ _ _ (by assumption) e c (by cases hc; rfl)
      · simp
  | cons p rest ih =>
      intro store rw sf e c
      rw [PostToBluesky]
      split
      · exact fun hc => hstep _ _ _ _ _ _ _ (by assumption) e c (by cases hc; rfl)
      · simpa using ih _ _ _ e c

/-- Whatever one round does for an in-limit message with a non-empty
access token, its trace starts with the `createRecord` submission
carrying that token. -/
theorem postStep_shape (message : String) (store : Option Config)
    (pwHead : Option PostWire) (rwHead : RefreshWire) (sfHead : Bool)
    (hlen : message.length ≤ BlueskeyCharacterLimit)
    (hacc : (LoadConfig store).blueskySession.accessJwt ≠ "") :
    (∃ r st evs, postStep message store pwHead rwHead sfHead =
      StepOut.done r st (Event.submit (LoadConfig store).blueskySession.accessJwt :: evs)) ∨
    (∃ st evs, postStep message store pwHead rwHead sfHead =
      StepOut.retry st (Event.submit (LoadConfig store).blueskySession.accessJwt :: evs)) := by
  simp only [postStep, Nat.not_lt.mpr hlen, if_false, hacc, if_neg hacc]
  match pwHead with
  | none => exact Or.inl ⟨_, _, _, rfl⟩
  | some (PostWire.netErr m) => exact Or.inl ⟨_, _, _, rfl⟩
  | some (PostWire.http status body) =>
      simp only []
      split
      · split
        · exact Or.inl ⟨_, _, _, rfl⟩
        · split
          · exact Or.inl ⟨_, _, _, rfl⟩
          · split
            · exact Or.inl ⟨_, _, _, rfl⟩
            · exact Or.inr ⟨_, _, rfl⟩
      · split
        · exact Or.inl ⟨_, _, _, rfl⟩
        · exact Or.inl ⟨_, _, _, rfl⟩

/-- Every run on an in-limit message with a non-empty stored access token
opens its trace with the submission carrying that token. -/
theorem PostToBluesky_trace_head (message : String) (store : Option Config)
    (pw : List PostWire) (rw : List RefreshWire) (sf : List Bool)
    (hlen : message.length ≤ BlueskeyCharacterLimit)
    (hacc : (LoadConfig store).blueskySession.accessJwt ≠ "") :
    ∃ es, (PostToBluesky message store pw rw sf).2.2 =
      Event.submit (LoadConfig store).blueskySession.accessJwt :: es := by
  match pw with
  | [] =>
      rcases postStep_shape message store none
          (rw.headD (RefreshWire.netErr "no response")) (sf.headD false) hlen hacc with
        ⟨r, st, evs, hd⟩ | ⟨st, evs, hd⟩
      · rw [PostToBluesky, hd]; exact ⟨evs, rfl⟩
      · rw [PostToBluesky, hd]; exact ⟨evs, rfl⟩
  | p :: pwRest =>
      rcases postStep_shape message store (some p)
          (rw.headD (RefreshWire.netErr "no response")) (sf.headD false) hlen hacc with
        ⟨r, st, evs, hd⟩ | ⟨st, evs, hd⟩
      · rw [PostToBluesky, hd]; exact ⟨evs, rfl⟩
      · rw [PostToBluesky, hd]
        exact ⟨evs ++ (PostToBluesky message st pwRest rw.tail sf.tail).2.2, rfl⟩

/-! ### Concrete data for witness runs -/

/-- A concrete authenticated session used in witness runs. -/
def witnessSession : BlueskySession :=
  { accessJwt := "tokA", refreshJwt := "refA", handle := "alice.example", did := "did:plc:alice" }

/-- A concrete stored config used in witness runs. -/
def witnessConfig : Config := { blueskySession := witnessSession }

/-! ### Claims about validation (C2, C8, C9) -/

/-- Claim C2: `PostToBluesky` fails with the too-long error carrying
`excess = count - limit` and makes zero network calls exactly when the
Unicode scalar-value count of the message exceeds the fixed limit of 300;
a message with count ≤ 300 never yields the too-long error, and (with an
authenticated store and a non-401 response) a single network submission
is attempted. -/
theorem claim_C2 (message : String) (store : Option Config)
    (rw : List RefreshWire) (sf : List Bool) :
    (∀ (pw : List PostWire), BlueskeyCharacterLimit < message.length →
      PostToBluesky message store pw rw sf =
        (PostResult.tooLong (message.length - BlueskeyCharacterLimit) message.length,
          store, [])) ∧
    (∀ (pw : List PostWire) (e c : Nat), message.length ≤ BlueskeyCharacterLimit →
      (PostToBluesky message store pw rw sf).1 ≠ PostResult.tooLong e c) ∧
    (∀ (status : Nat) (body : String), message.length ≤ BlueskeyCharacterLimit →
      (LoadConfig store).blueskySession.accessJwt ≠ "" → status ≠ 401 →
      countSubmits (PostToBluesky message store [PostWire.http status body] rw sf).2.2 = 1) := by
  refine ⟨fun pw h => PostToBluesky_tooLong message store pw rw sf h,
    fun pw e c h => PostToBluesky_ne_tooLong message h pw store rw sf e c,
    fun status body hlen hacc h401 => ?_⟩
  by_cases h200 : status = 200
  · subst h200
    rw [PostToBluesky_cons_done _ _ _ _ _ _ _ _ _
      (postStep_success message store body _ _ hlen hacc)]
    simp [countSubmits]
  · rw [PostToBluesky_cons_done _ _ _ _ _ _ _ _ _
      (postStep_rejected message store status body _ _ hlen hacc h401 h200)]
    simp [countSubmits]

set_option maxRecDepth 8192 in
/-- Witness for C2: 301 `a`s are rejected locally with excess 1 and an
empty trace; 300 `a`s pass validation and trigger exactly one submission;
300 `é`s occupy 600 UTF-8 bytes yet pass the 300-character check, so the
count is of scalar values, not bytes. -/
theorem claim_C2_witness :
    (PostToBluesky (String.mk (List.replicate 301 'a')) none [] [] [] =
      (PostResult.tooLong 1 301, none, [])) ∧
    countSubmits (PostToBluesky (String.mk (List.replicate 300 'a'))
      (some witnessConfig) [PostWire.http 200 "ok"] [] []).2.2 = 1 ∧
    (String.mk (List.replicate 300 'é')).utf8ByteSize = 600 ∧
    countSubmits (PostToBluesky (String.mk (List.replicate 300 'é'))
      (some witnessConfig) [PostWire.http 200 "ok"] [] []).2.2 = 1 := by
  refine ⟨?_, ?_, by decide, ?_⟩
  · have h := (claim_C2 (String.mk (List.replicate 301 'a')) none [] []).1 [] (by decide)
    rw [h]; decide
  · exact (claim_C2 (String.mk (List.replicate 300 'a')) (some witnessConfig) [] []).2.2
      200 "ok" (by decide) (by decide) (by decide)
  · exact (claim_C2 (String.mk (List.replicate 300 'é')) (some witnessConfig) [] []).2.2
      200 "ok" (by decide) (by decide) (by decide)

/-- Claim C8: for an in-limit message, an empty stored access token makes
`PostToBluesky` return the not-authenticated error with an empty trace —
no submission and no refresh is attempted. -/
theorem claim_C8 (message : String) (store : Option Config)
    (pw : List PostWire) (rw : List RefreshWire) (sf : List Bool)
    (hlen : message.length ≤ BlueskeyCharacterLimit)
    (hacc : (LoadConfig store).blueskySession.accessJwt = "") :
    PostToBluesky message store pw rw sf = (PostResult.notAuthenticated, store, []) := by
  match pw with
  | [] => rw [PostToBluesky, postStep_notAuthenticated _ _ _ _ _ hlen hacc]
  | p :: rest => rw [PostToBluesky, postStep_notAuthenticated _ _ _ _ _ hlen hacc]

/-- Witness for C8: with no stored session, `post hello` fails as
not-authenticated with an empty trace. -/
theorem claim_C8_witness :
    PostToBluesky "hello" none [PostWire.http 200 "ok"] [] [] =
      (PostResult.notAuthenticated, none, []) :=
  claim_C8 "hello" none [PostWire.http 200 "ok"] [] [] (by decide) (by decide)

/-- Claim C9: for an over-long message the result of `PostToBluesky` is
identical across any two store states and oracles — the too-long outcome
and its excess are computed before the store is read, and no network call
or store write occurs. -/
theorem claim_C9 (message : String) (store₁ store₂ : Option Config)
    (pw₁ pw₂ : List PostWire) (rw₁ rw₂ : List RefreshWire) (sf₁ sf₂ : List Bool)
    (h : BlueskeyCharacterLimit < message.length) :
    (PostToBluesky message store₁ pw₁ rw₁ sf₁).1 =
      (PostToBluesky message store₂ pw₂ rw₂ sf₂).1 ∧
    (PostToBluesky message store₁ pw₁ rw₁ sf₁).1 =
      PostResult.tooLong (message.length - BlueskeyCharacterLimit) message.length ∧
    (PostToBluesky message store₁ pw₁ rw₁ sf₁).2 = (store₁, []) := by
  rw [PostToBluesky_tooLong _ _ _ _ _ h, PostToBluesky_tooLong _ _ _ _ _ h]
  simp

set_option maxRecDepth 8192 in
/-- Witness for C9: a 301-character message gives the same too-long result
on an absent store and on an authenticated store with a queued 200. -/
theorem claim_C9_witness :
    (PostToBluesky (String.mk (List.replicate 301 'a')) none [] [] []).1 =
      (PostToBluesky (String.mk (List.replicate 301 'a')) (some witnessConfig)
        [PostWire.http 200 "ok"] [] []).1 ∧
    (PostToBluesky (String.mk (List.replicate 301 'a')) none [] [] []).1 =
      PostResult.tooLong 1 301 ∧
    (PostToBluesky (String.mk (List.replicate 301 'a')) none [] [] []).2 =
      ((none : Option Config), ([] : List Event)) := by
  have h := claim_C9 (String.mk (List.replicate 301 'a')) none (some witnessConfig)
    [] [PostWire.http 200 "ok"] [] [] [] [] (by decide)
  refine ⟨h.1, ?_, h.2.2⟩
  rw [h.2.1]; decide

/-- The token pair a witness refresh exchange returns. -/
def witnessAuthB : BlueskyAuthResponse :=
  { accessJwt := "tokB", refreshJwt := "refB", did := "did:plc:alice" }

/-- `witnessConfig` after its tokens are replaced by `witnessAuthB`. -/
def witnessConfigB : Config :=
  { blueskySession :=
    { accessJwt := "tokB", refreshJwt := "refB",
      handle := "alice.example", did := "did:plc:alice" } }

/-! ### Claims about the 401 recovery path (C3, C6, C10) -/

/-- Claim C3: when the submission returns 401 and the refresh exchange is
rejected by the remote service, `PostToBluesky` returns the failed-refresh
error (which instructs re-authentication) after exactly one refresh
attempt and one submission, with no credential exchange — the trace is
exactly one submit followed by one refresh call. -/
theorem claim_C3 (message : String) (store : Option Config)
    (body : String) (pwRest : List PostWire) (rw : List RefreshWire) (sf : List Bool)
    (e : RefreshErr)
    (hlen : message.length ≤ BlueskeyCharacterLimit)
    (hacc : (LoadConfig store).blueskySession.accessJwt ≠ "")
    (href : (LoadConfig store).blueskySession.refreshJwt ≠ "")
    (hr : refreshBlueskyToken (LoadConfig store).blueskySession.refreshJwt
        (rw.headD (RefreshWire.netErr "no response")) = Except.error e) :
    PostToBluesky message store (PostWire.http 401 body :: pwRest) rw sf =
      (PostResult.refreshFailed e, store,
        [Event.submit (LoadConfig store).blueskySession.accessJwt,
         Event.refreshCall (LoadConfig store).blueskySession.refreshJwt]) ∧
    countRefreshCalls
      (PostToBluesky message store (PostWire.http 401 body :: pwRest) rw sf).2.2 = 1 ∧
    countSubmits
      (PostToBluesky message store (PostWire.http 401 body :: pwRest) rw sf).2.2 = 1 ∧
    countAuthCalls
      (PostToBluesky message store (PostWire.http 401 body :: pwRest) rw sf).2.2 = 0 := by
  have h := PostToBluesky_cons_done _ _ _ pwRest _ _ _ _ _
    (postStep_401_refreshErr message store body
      (rw.headD (RefreshWire.netErr "no response")) (sf.headD false) e hlen hacc href hr)
  refine ⟨h, ?_, ?_, ?_⟩ <;>
    rw [h] <;> simp [countRefreshCalls, countSubmits, countAuthCalls]

/-- Witness for C3: a 401 followed by a 400 refresh rejection surfaces the
refresh failure after one submit and one refresh call. -/
theorem claim_C3_witness :
    PostToBluesky "hello" (some witnessConfig) [PostWire.http 401 "expired"]
      [RefreshWire.http 400 "bad refresh" none] [] =
      (PostResult.refreshFailed (RefreshErr.badStatus 400 "bad refresh"),
        some witnessConfig,
        [Event.submit "tokA", Event.refreshCall "refA"]) := by
  have h := (claim_C3 "hello" (some witnessConfig) "expired" []
    [RefreshWire.http 400 "bad refresh" none] []
    (RefreshErr.badStatus 400 "bad refresh")
    (by decide) (by decide) (by decide) (by rfl)).1
  rw [h]; decide

/-- Claim C6: no failure path ever writes the store.  A failed refresh
exchange during `PostToBluesky` leaves the store exactly as it was with
zero `SaveConfig` attempts; a failed credential exchange during
`authenticateBluesky` does the same, both when no refresh token is stored
and when a real previously persisted session is present (non-empty
refresh token whose refresh exchange failed, falling through to the
credential prompt at main.go line 200); and a failed refresh exchange
inside `authenticateBluesky` itself writes nothing — if the run stops
there (the prompt fails), the store is untouched with zero saves. -/
theorem claim_C6 :
    (∀ (message : String) (store : Option Config) (body : String)
      (pwRest : List PostWire) (rw : List RefreshWire) (sf : List Bool) (e : RefreshErr),
      message.length ≤ BlueskeyCharacterLimit →
      (LoadConfig store).blueskySession.accessJwt ≠ "" →
      (LoadConfig store).blueskySession.refreshJwt ≠ "" →
      refreshBlueskyToken (LoadConfig store).blueskySession.refreshJwt
        (rw.headD (RefreshWire.netErr "no response")) = Except.error e →
      (PostToBluesky message store (PostWire.http 401 body :: pwRest) rw sf).2.1 = store ∧
      countSaveCalls
        (PostToBluesky message store (PostWire.http 401 body :: pwRest) rw sf).2.2 = 0) ∧
    (∀ (store : Option Config) (rw : List RefreshWire) (identifier appPassword : String)
      (aw : List AuthWire) (sf : List Bool) (e : AuthErr),
      (LoadConfig store).blueskySession.refreshJwt = "" →
      authenticateWithCredentials identifier appPassword
        (aw.headD (AuthWire.netErr "no response")) = Except.error e →
      authenticateBluesky store rw (Except.ok (identifier, appPassword)) aw sf =
        (AuthResult.authFailed e, store, [Event.authCall identifier]) ∧
      countSaveCalls
        (authenticateBluesky store rw (Except.ok (identifier, appPassword)) aw sf).2.2 = 0) ∧
    (∀ (store : Option Config) (rw : List RefreshWire) (identifier appPassword : String)
      (aw : List AuthWire) (sf : List Bool) (er : RefreshErr) (e : AuthErr),
      (LoadConfig store).blueskySession.refreshJwt ≠ "" →
      refreshBlueskyToken (LoadConfig store).blueskySession.refreshJwt
        (rw.headD (RefreshWire.netErr "no response")) = Except.error er →
      authenticateWithCredentials identifier appPassword
        (aw.headD (AuthWire.netErr "no response")) = Except.error e →
      authenticateBluesky store rw (Except.ok (identifier, appPassword)) aw sf =
        (AuthResult.authFailed e, store,
          [Event.refreshCall (LoadConfig store).blueskySession.refreshJwt,
           Event.authCall identifier]) ∧
      countSaveCalls
        (authenticateBluesky store rw (Except.ok (identifier, appPassword)) aw sf).2.2 = 0) ∧
    (∀ (store : Option Config) (rw : List RefreshWire) (m : String)
      (aw : List AuthWire) (sf : List Bool) (er : RefreshErr),
      (LoadConfig store).blueskySession.refreshJwt ≠ "" →
      refreshBlueskyToken (LoadConfig store).blueskySession.refreshJwt
        (rw.headD (RefreshWire.netErr "no response")) = Except.error er →
      authenticateBluesky store rw (Except.error m) aw sf =
        (AuthResult.promptFailed m, store,
          [Event.refreshCall (LoadConfig store).blueskySession.refreshJwt]) ∧
      countSaveCalls
        (authenticateBluesky store rw (Except.error m) aw sf).2.2 = 0) := by
  refine ⟨?_, ?_, ?_, ?_⟩
  · intro message store body pwRest rw sf e hlen hacc href hr
    have h := PostToBluesky_cons_done _ _ _ pwRest _ _ _ _ _
      (postStep_401_refreshErr message store body
        (rw.headD (RefreshWire.netErr "no response")) (sf.headD false) e hlen hacc href hr)
    refine ⟨?_, ?_⟩ <;> rw [h] <;> simp [countSaveCalls]
  · intro store rw identifier appPassword aw sf e hrefEmpty hcred
    have hcred' : authenticateWithCredentials identifier appPassword
        (aw.head?.getD (AuthWire.netErr "no response")) = Except.error e := by
      simpa using hcred
    constructor
    · simp [authenticateBluesky, hrefEmpty, authenticateWithPrompt, hcred']
    · simp [authenticateBluesky, hrefEmpty, authenticateWithPrompt, hcred', countSaveCalls]
  · intro store rw identifier appPassword aw sf er e hrefNe hrf hcred
    have hrf' : refreshBlueskyToken (LoadConfig store).blueskySession.refreshJwt
        (rw.head?.getD (RefreshWire.netErr "no response")) = Except.error er := by
      simpa using hrf
    have hcred' : authenticateWithCredentials identifier appPassword
        (aw.head?.getD (AuthWire.netErr "no response")) = Except.error e := by
      simpa using hcred
    constructor
    · simp [authenticateBluesky, hrefNe, hrf', authenticateWithPrompt, hcred']
    · simp [authenticateBluesky, hrefNe, hrf', authenticateWithPrompt, hcred', countSaveCalls]
  · intro store rw m aw sf er hrefNe hrf
    have hrf' : refreshBlueskyToken (LoadConfig store).blueskySession.refreshJwt
        (rw.head?.getD (RefreshWire.netErr "no response")) = Except.error er := by
      simpa using hrf
    constructor
    · simp [authenticateBluesky, hrefNe, hrf', authenticateWithPrompt]
    · simp [authenticateBluesky, hrefNe, hrf', authenticateWithPrompt, countSaveCalls]

/-- Witness for C6: a transport-failed refresh during a post leaves the
stored session in place with no save attempt; a rejected credential
exchange on an empty store leaves the store absent; a rejected
credential exchange after a failed refresh of a real stored session
(refresh token `refA`) leaves that session untouched; and a failed
refresh followed by a failed prompt writes nothing. -/
theorem claim_C6_witness :
    ((PostToBluesky "hello" (some witnessConfig) [PostWire.http 401 "expired"]
        [RefreshWire.netErr "connection refused"] []).2.1 = some witnessConfig ∧
      countSaveCalls (PostToBluesky "hello" (some witnessConfig)
        [PostWire.http 401 "expired"] [RefreshWire.netErr "connection refused"] []).2.2 = 0) ∧
    (authenticateBluesky none [] (Except.ok ("alice.example", "app-pass"))
        [AuthWire.http 401 "bad credentials" none] [] =
      (AuthResult.authFailed (AuthErr.badStatus 401 "bad credentials"), none,
        [Event.authCall "alice.example"])) ∧
    (authenticateBluesky (some witnessConfig) [RefreshWire.http 400 "stale" none]
        (Except.ok ("alice.example", "app-pass"))
        [AuthWire.http 401 "bad credentials" none] [] =
      (AuthResult.authFailed (AuthErr.badStatus 401 "bad credentials"), some witnessConfig,
        [Event.refreshCall "refA", Event.authCall "alice.example"])) ∧
    (authenticateBluesky (some witnessConfig) [RefreshWire.http 400 "stale" none]
        (Except.error "no input") [] [] =
      (AuthResult.promptFailed "no input", some witnessConfig,
        [Event.refreshCall "refA"])) := by
  refine ⟨claim_C6.1 "hello" (some witnessConfig) "expired" []
    [RefreshWire.netErr "connection refused"] []
    (RefreshErr.requestFailed "connection refused")
    (by decide) (by decide) (by decide) (by rfl), ?_, ?_, ?_⟩
  · exact (claim_C6.2.1 none [] "alice.example" "app-pass"
      [AuthWire.http 401 "bad credentials" none] []
      (AuthErr.badStatus 401 "bad credentials") (by decide) (by rfl)).1
  · have h := (claim_C6.2.2.1 (some witnessConfig) [RefreshWire.http 400 "stale" none]
      "alice.example" "app-pass" [AuthWire.http 401 "bad credentials" none] []
      (RefreshErr.badStatus 400 "stale") (AuthErr.badStatus 401 "bad credentials")
      (by decide) (by rfl) (by rfl)).1
    rw [h]; decide
  · have h := (claim_C6.2.2.2 (some witnessConfig) [RefreshWire.http 400 "stale" none]
      "no input" [] [] (RefreshErr.badStatus 400 "stale") (by decide) (by rfl)).1
    rw [h]; decide

/-- Claim C10: on the 401 path, a successful refresh persists the new
token pair before any retry: if the save fails, `PostToBluesky` returns
the save error with no retry submission; if the save succeeds, the run
continues exactly as a run started from the freshly saved store, and the
retry submission carries the freshly persisted access token. -/
theorem claim_C10 (message : String) (store : Option Config)
    (body : String) (pwRest : List PostWire) (rw : List RefreshWire) (sf : List Bool)
    (auth : BlueskyAuthResponse)
    (hlen : message.length ≤ BlueskeyCharacterLimit)
    (hacc : (LoadConfig store).blueskySession.accessJwt ≠ "")
    (href : (LoadConfig store).blueskySession.refreshJwt ≠ "")
    (hr : refreshBlueskyToken (LoadConfig store).blueskySession.refreshJwt
        (rw.headD (RefreshWire.netErr "no response")) = Except.ok auth) :
    (sf.headD false = true →
      PostToBluesky message store (PostWire.http 401 body :: pwRest) rw sf =
        (PostResult.saveFailed, store,
          [Event.submit (LoadConfig store).blueskySession.accessJwt,
           Event.refreshCall (LoadConfig store).blueskySession.refreshJwt,
           Event.saveCall (refreshedConfig (LoadConfig store) auth)])) ∧
    (sf.headD false = false →
      PostToBluesky message store (PostWire.http 401 body :: pwRest) rw sf =
        ((PostToBluesky message (some (refreshedConfig (LoadConfig store) auth))
            pwRest rw.tail sf.tail).1,
         (PostToBluesky message (some (refreshedConfig (LoadConfig store) auth))
            pwRest rw.tail sf.tail).2.1,
         [Event.submit (LoadConfig store).blueskySession.accessJwt,
          Event.refreshCall (LoadConfig store).blueskySession.refreshJwt,
          Event.saveCall (refreshedConfig (LoadConfig store) auth)] ++
           (PostToBluesky message (some (refreshedConfig (LoadConfig store) auth))
             pwRest rw.tail sf.tail).2.2) ∧
      (auth.accessJwt ≠ "" → ∃ es,
        (PostToBluesky message store (PostWire.http 401 body :: pwRest) rw sf).2.2 =
          [Event.submit (LoadConfig store).blueskySession.accessJwt,
           Event.refreshCall (LoadConfig store).blueskySession.refreshJwt,
           Event.saveCall (refreshedConfig (LoadConfig store) auth),
           Event.submit auth.accessJwt] ++ es)) := by
  constructor
  · intro hsf
    have hstep := postStep_401_refreshOk_saveFail message store body
      (rw.headD (RefreshWire.netErr "no response")) auth hlen hacc href hr
    rw [← hsf] at hstep
    exact PostToBluesky_cons_done _ _ _ pwRest _ _ _ _ _ hstep
  · intro hsf
    have hstep := postStep_401_refreshOk_saveOk message store body
      (rw.headD (RefreshWire.netErr "no response")) auth hlen hacc href hr
    rw [← hsf] at hstep
    have h := PostToBluesky_cons_retry _ _ _ pwRest _ _ _ _ hstep
    refine ⟨h, fun haccB => ?_⟩
    have haccB' : (LoadConfig (some (refreshedConfig (LoadConfig store) auth))
        ).blueskySession.accessJwt ≠ "" := by
      simpa [LoadConfig, refreshedConfig] using haccB
    obtain ⟨es, hes⟩ := PostToBluesky_trace_head message
      (some (refreshedConfig (LoadConfig store) auth)) pwRest rw.tail sf.tail hlen haccB'
    have hload : (LoadConfig (some (refreshedConfig (LoadConfig store) auth))
        ).blueskySession.accessJwt = auth.accessJwt := rfl
    rw [hload] at hes
    refine ⟨es, ?_⟩
    rw [h]
    simp [hes]

/-- Witness for C10: with a failing write the run stops at the save error
after one submission; with a succeeding write the store is updated before
the retry submission, which carries the new token and succeeds. -/
theorem claim_C10_witness :
    (PostToBluesky "hello" (some witnessConfig) [PostWire.http 401 "expired"]
        [RefreshWire.http 200 "tokens" (some witnessAuthB)] [true] =
      (PostResult.saveFailed, some witnessConfig,
        [Event.submit "tokA", Event.refreshCall "refA",
         Event.saveCall witnessConfigB])) ∧
    (PostToBluesky "hello" (some witnessConfig)
        [PostWire.http 401 "expired", PostWire.http 200 "posted"]
        [RefreshWire.http 200 "tokens" (some witnessAuthB)] [] =
      (PostResult.ok, some witnessConfigB,
        [Event.submit "tokA", Event.refreshCall "refA",
         Event.saveCall witnessConfigB, Event.submit "tokB"])) := by
  constructor
  · have h := (claim_C10 "hello" (some witnessConfig) "expired" []
      [RefreshWire.http 200 "tokens" (some witnessAuthB)] [true] witnessAuthB
      (by decide) (by decide) (by decide) (by rfl)).1 (by decide)
    rw [h]; decide
  · have h := ((claim_C10 "hello" (some witnessConfig) "expired" [PostWire.http 200 "posted"]
      [RefreshWire.http 200 "tokens" (some witnessAuthB)] [] witnessAuthB
      (by decide) (by decide) (by decide) (by rfl)).2 (by decide)).1
    rw [h]; decide

/-- The token pair a second witness refresh exchange returns. -/
def witnessAuthC : BlueskyAuthResponse :=
  { accessJwt := "tokC", refreshJwt := "refC", did := "did:plc:alice" }

/-- `countRefreshCalls` distributes over trace concatenation. -/
theorem countRefreshCalls_append (a b : List Event) :
    countRefreshCalls (a ++ b) = countRefreshCalls a + countRefreshCalls b := by
  simp [countRefreshCalls, List.filter_append]

/-- Any run whose first submission gets a 401 while a refresh token is
stored performs at least one refresh call, whatever the refresh exchange
and the save then do. -/
theorem PostToBluesky_401_refreshCalls_ge_one (message : String) (store : Option Config)
    (body : String) (pwRest : List PostWire) (rw : List RefreshWire) (sf : List Bool)
    (hlen : message.length ≤ BlueskeyCharacterLimit)
    (hacc : (LoadConfig store).blueskySession.accessJwt ≠ "")
    (href : (LoadConfig store).blueskySession.refreshJwt ≠ "") :
    1 ≤ countRefreshCalls
      (PostToBluesky message store (PostWire.http 401 body :: pwRest) rw sf).2.2 := by
  cases hr : refreshBlueskyToken (LoadConfig store).blueskySession.refreshJwt
      (rw.headD (RefreshWire.netErr "no response")) with
  | error e =>
      rw [PostToBluesky_cons_done _ _ _ pwRest _ _ _ _ _
        (postStep_401_refreshErr message store body
          (rw.headD (RefreshWire.netErr "no response")) (sf.headD false) e hlen hacc href hr)]
      simp [countRefreshCalls]
  | ok auth =>
      cases hsf : sf.headD false with
      | true =>
          have hstep := postStep_401_refreshOk_saveFail message store body
            (rw.headD (RefreshWire.netErr "no response")) auth hlen hacc href hr
          rw [← hsf] at hstep
          rw [PostToBluesky_cons_done _ _ _ pwRest _ _ _ _ _ hstep]
          simp [countRefreshCalls]
      | false =>
          have hstep := postStep_401_refreshOk_saveOk message store body
            (rw.headD (RefreshWire.netErr "no response")) auth hlen hacc href hr
          rw [← hsf] at hstep
          rw [PostToBluesky_cons_retry _ _ _ pwRest _ _ _ _ hstep]
          simp [countRefreshCalls_append, countRefreshCalls]

/-! ### Claim C1: the single-refresh-single-retry contract -/

/-- Counterexample to C1 as stated: a run in the claim's scope (first
submission 401, non-empty stored refresh token, refresh succeeds) whose
retry also returns 401 does not surface that failure — the self-call at
main.go line 301 re-enters the 401 handling, performing a second refresh
and a third submission and ultimately succeeding.  So "invokes the
refresh operation exactly once and retries the submission exactly once;
if that retry also fails (including with a second 401) its error is
surfaced with no further refreshes or retries" is false of the code. -/
theorem claim_C1_counterexample :
    countRefreshCalls (PostToBluesky "hello" (some witnessConfig)
      [PostWire.http 401 "expired", PostWire.http 401 "expired again",
       PostWire.http 200 "posted"]
      [RefreshWire.http 200 "t1" (some witnessAuthB),
       RefreshWire.http 200 "t2" (some witnessAuthC)] []).2.2 = 2 ∧
    countSubmits (PostToBluesky "hello" (some witnessConfig)
      [PostWire.http 401 "expired", PostWire.http 401 "expired again",
       PostWire.http 200 "posted"]
      [RefreshWire.http 200 "t1" (some witnessAuthB),
       RefreshWire.http 200 "t2" (some witnessAuthC)] []).2.2 = 3 ∧
    (PostToBluesky "hello" (some witnessConfig)
      [PostWire.http 401 "expired", PostWire.http 401 "expired again",
       PostWire.http 200 "posted"]
      [RefreshWire.http 200 "t1" (some witnessAuthB),
       RefreshWire.http 200 "t2" (some witnessAuthC)] []).1 = PostResult.ok := by
  refine ⟨by decide, by decide, by decide⟩

/-- Claim C1 as amended: after a first 401 with a successful refresh and
save, the retry carries the new token, and (a) if it gets 200 the post
succeeds with the store holding the new pair after exactly one refresh
and two submissions; (b)/(c) if it fails with a non-401 status or a
transport error, that error is surfaced with no further refresh or retry;
(d) if it gets 401 and the new refresh token is empty, the
no-refresh-token error is surfaced likewise; but (e) if it gets 401 and
the new refresh token is non-empty, the code starts another
refresh-and-retry cycle — at least a second refresh call occurs, so the
retry bound of one holds only when the retry does not itself 401 into a
usable refresh token. -/
theorem claim_C1_amended (message : String) (store : Option Config)
    (b1 : String) (p2 : PostWire) (pwRest : List PostWire)
    (rw : List RefreshWire) (sf : List Bool) (auth : BlueskyAuthResponse)
    (hlen : message.length ≤ BlueskeyCharacterLimit)
    (hacc : (LoadConfig store).blueskySession.accessJwt ≠ "")
    (href : (LoadConfig store).blueskySession.refreshJwt ≠ "")
    (hr : refreshBlueskyToken (LoadConfig store).blueskySession.refreshJwt
        (rw.headD (RefreshWire.netErr "no response")) = Except.ok auth)
    (hsf : sf.headD false = false)
    (haccB : auth.accessJwt ≠ "") :
    (∀ b2, p2 = PostWire.http 200 b2 →
      PostToBluesky message store (PostWire.http 401 b1 :: p2 :: pwRest) rw sf =
        (PostResult.ok, some (refreshedConfig (LoadConfig store) auth),
         [Event.submit (LoadConfig store).blueskySession.accessJwt,
          Event.refreshCall (LoadConfig store).blueskySession.refreshJwt,
          Event.saveCall (refreshedConfig (LoadConfig store) auth),
          Event.submit auth.accessJwt])) ∧
    (∀ s2 b2, p2 = PostWire.http s2 b2 → s2 ≠ 401 → s2 ≠ 200 →
      PostToBluesky message store (PostWire.http 401 b1 :: p2 :: pwRest) rw sf =
        (PostResult.remoteRejected s2 b2, some (refreshedConfig (LoadConfig store) auth),
         [Event.submit (LoadConfig store).blueskySession.accessJwt,
          Event.refreshCall (LoadConfig store).blueskySession.refreshJwt,
          Event.saveCall (refreshedConfig (LoadConfig store) auth),
          Event.submit auth.accessJwt])) ∧
    (∀ m, p2 = PostWire.netErr m →
      PostToBluesky message store (PostWire.http 401 b1 :: p2 :: pwRest) rw sf =
        (PostResult.postRequestFailed m, some (refreshedConfig (LoadConfig store) auth),
         [Event.submit (LoadConfig store).blueskySession.accessJwt,
          Event.refreshCall (LoadConfig store).blueskySession.refreshJwt,
          Event.saveCall (refreshedConfig (LoadConfig store) auth),
          Event.submit auth.accessJwt])) ∧
    (∀ b2, p2 = PostWire.http 401 b2 → auth.refreshJwt = "" →
      PostToBluesky message store (PostWire.http 401 b1 :: p2 :: pwRest) rw sf =
        (PostResult.noRefreshToken, some (refreshedConfig (LoadConfig store) auth),
         [Event.submit (LoadConfig store).blueskySession.accessJwt,
          Event.refreshCall (LoadConfig store).blueskySession.refreshJwt,
          Event.saveCall (refreshedConfig (LoadConfig store) auth),
          Event.submit auth.accessJwt])) ∧
    (∀ b2, p2 = PostWire.http 401 b2 → auth.refreshJwt ≠ "" →
      2 ≤ countRefreshCalls
        (PostToBluesky message store (PostWire.http 401 b1 :: p2 :: pwRest) rw sf).2.2) := by
  have hstep := postStep_401_refreshOk_saveOk message store b1
    (rw.headD (RefreshWire.netErr "no response")) auth hlen hacc href hr
  rw [← hsf] at hstep
  have h1 := PostToBluesky_cons_retry _ _ _ (p2 :: pwRest) _ _ _ _ hstep
  have hacc2 : (LoadConfig (some (refreshedConfig (LoadConfig store) auth))
      ).blueskySession.accessJwt ≠ "" := by
    simpa [LoadConfig, refreshedConfig] using haccB
  refine ⟨?_, ?_, ?_, ?_, ?_⟩
  · intro b2 hp2
    subst hp2
    rw [h1, PostToBluesky_cons_done _ _ _ pwRest _ _ _ _ _
      (postStep_success message (some (refreshedConfig (LoadConfig store) auth)) b2
        ((rw.tail).headD (RefreshWire.netErr "no response")) ((sf.tail).headD false)
        hlen hacc2)]
    simp [LoadConfig, refreshedConfig]
  · intro s2 b2 hp2 h401 h200
    subst hp2
    rw [h1, PostToBluesky_cons_done _ _ _ pwRest _ _ _ _ _
      (postStep_rejected message (some (refreshedConfig (LoadConfig store) auth)) s2 b2
        ((rw.tail).headD (RefreshWire.netErr "no response")) ((sf.tail).headD false)
        hlen hacc2 h401 h200)]
    simp [LoadConfig, refreshedConfig]
  · intro m hp2
    subst hp2
    rw [h1, PostToBluesky_cons_done _ _ _ pwRest _ _ _ _ _
      (postStep_netErr message (some (refreshedConfig (LoadConfig store) auth)) m
        ((rw.tail).headD (RefreshWire.netErr "no response")) ((sf.tail).headD false)
        hlen hacc2)]
    simp [LoadConfig, refreshedConfig]
  · intro b2 hp2 hrefB
    subst hp2
    have hrefB' : (LoadConfig (some (refreshedConfig (LoadConfig store) auth))
        ).blueskySession.refreshJwt = "" := by
      simpa [LoadConfig, refreshedConfig] using hrefB
    rw [h1, PostToBluesky_cons_done _ _ _ pwRest _ _ _ _ _
      (postStep_401_noRefreshToken message (some (refreshedConfig (LoadConfig store) auth)) b2
        ((rw.tail).headD (RefreshWire.netErr "no response")) ((sf.tail).headD false)
        hlen hacc2 hrefB')]
    simp [LoadConfig, refreshedConfig]
  · intro b2 hp2 hrefB
    subst hp2
    have hrefB' : (LoadConfig (some (refreshedConfig (LoadConfig store) auth))
        ).blueskySession.refreshJwt ≠ "" := by
      simpa [LoadConfig, refreshedConfig] using hrefB
    rw [h1]
    have h2 := PostToBluesky_401_refreshCalls_ge_one message
      (some (refreshedConfig (LoadConfig store) auth)) b2 pwRest rw.tail sf.tail
      hlen hacc2 hrefB'
    simp only [countRefreshCalls_append]
    have h3 : countRefreshCalls
        [Event.submit (LoadConfig store).blueskySession.accessJwt,
         Event.refreshCall (LoadConfig store).blueskySession.refreshJwt,
         Event.saveCall (refreshedConfig (LoadConfig store) auth)] = 1 := by
      simp [countRefreshCalls]
    omega

set_option maxRecDepth 4096 in
/-- Witness for the amended C1: a 401 then 200 run succeeds with one
refresh and the new tokens stored; a 401 then 401 run performs a second
refresh call. -/
theorem claim_C1_witness :
    (PostToBluesky "hello" (some witnessConfig)
        [PostWire.http 401 "expired", PostWire.http 200 "posted"]
        [RefreshWire.http 200 "t1" (some witnessAuthB)] [] =
      (PostResult.ok, some witnessConfigB,
        [Event.submit "tokA", Event.refreshCall "refA",
         Event.saveCall witnessConfigB, Event.submit "tokB"])) ∧
    2 ≤ countRefreshCalls (PostToBluesky "hello" (some witnessConfig)
        [PostWire.http 401 "expired", PostWire.http 401 "again"]
        [RefreshWire.http 200 "t1" (some witnessAuthB),
         RefreshWire.http 200 "t2" (some witnessAuthC)] []).2.2 := by
  constructor
  · have h := (claim_C1_amended "hello" (some witnessConfig) "expired"
      (PostWire.http 200 "posted") [] [RefreshWire.http 200 "t1" (some witnessAuthB)] []
      witnessAuthB (by decide) (by decide) (by decide) (by rfl) (by decide) (by decide)).1
      "posted" rfl
    rw [h]; decide
  · exact (claim_C1_amended "hello" (some witnessConfig) "expired"
      (PostWire.http 401 "again") []
      [RefreshWire.http 200 "t1" (some witnessAuthB),
       RefreshWire.http 200 "t2" (some witnessAuthC)] []
      witnessAuthB (by decide) (by decide) (by decide) (by rfl) (by decide)
      (by decide)).2.2.2.2 "again" rfl (by decide)

/-! ### Claim C4: status classification of the submission -/

/-- Counterexample to C4 as stated: the code tests `StatusCode != 200`,
not "non-2xx", so a 201 response — a 2xx success by the claim — is
rejected with the remote-rejected error instead of succeeding. -/
theorem claim_C4_counterexample :
    (PostToBluesky "hello" (some witnessConfig) [PostWire.http 201 "created"] [] []).1 =
      PostResult.remoteRejected 201 "created" ∧
    (PostToBluesky "hello" (some witnessConfig) [PostWire.http 201 "created"] [] []).1 ≠
      PostResult.ok ∧
    200 ≤ 201 ∧ 201 < 300 := by
  refine ⟨by decide, by decide, by decide, by decide⟩

/-- Claim C4 as amended: for a non-401 status, `PostToBluesky` succeeds
exactly when the status is 200 (not any 2xx); on any other status it
fails with the remote-rejected error carrying the status and body, after
exactly one submission and no retry. -/
theorem claim_C4_amended (message : String) (store : Option Config)
    (status : Nat) (body : String) (rw : List RefreshWire) (sf : List Bool)
    (hlen : message.length ≤ BlueskeyCharacterLimit)
    (hacc : (LoadConfig store).blueskySession.accessJwt ≠ "")
    (h401 : status ≠ 401) :
    ((PostToBluesky message store [PostWire.http status body] rw sf).1 = PostResult.ok ↔
      status = 200) ∧
    (status ≠ 200 →
      PostToBluesky message store [PostWire.http status body] rw sf =
        (PostResult.remoteRejected status body, store,
          [Event.submit (LoadConfig store).blueskySession.accessJwt])) ∧
    (status = 200 →
      PostToBluesky message store [PostWire.http status body] rw sf =
        (PostResult.ok, store,
          [Event.submit (LoadConfig store).blueskySession.accessJwt])) := by
  by_cases h200 : status = 200
  · subst h200
    have h := PostToBluesky_cons_done _ _ _ ([] : List PostWire) _ _ _ _ _
      (postStep_success message store body
        (rw.headD (RefreshWire.netErr "no response")) (sf.headD false) hlen hacc)
    refine ⟨?_, fun hne => absurd rfl hne, fun _ => h⟩
    rw [h]; simp
  · have h := PostToBluesky_cons_done _ _ _ ([] : List PostWire) _ _ _ _ _
      (postStep_rejected message store status body
        (rw.headD (RefreshWire.netErr "no response")) (sf.headD false) hlen hacc h401 h200)
    refine ⟨?_, fun _ => h, fun he => absurd he h200⟩
    rw [h]; simp [h200]

/-- Witness for the amended C4: 200 succeeds, 500 is rejected with status
and body after a single submission. -/
theorem claim_C4_witness :
    (PostToBluesky "hello" (some witnessConfig) [PostWire.http 200 "posted"] [] [] =
      (PostResult.ok, some witnessConfig, [Event.submit "tokA"])) ∧
    (PostToBluesky "hello" (some witnessConfig) [PostWire.http 500 "oops"] [] [] =
      (PostResult.remoteRejected 500 "oops", some witnessConfig, [Event.submit "tokA"])) := by
  constructor
  · have h := (claim_C4_amended "hello" (some witnessConfig) 200 "posted" [] []
      (by decide) (by decide) (by decide)).2.2 rfl
    rw [h]; decide
  · have h := (claim_C4_amended "hello" (some witnessConfig) 500 "oops" [] []
      (by decide) (by decide) (by decide)).2.1 (by decide)
    rw [h]; decide

/-! ### Claim C5: which handle is persisted -/

/-- A wire auth response whose server-declared handle differs from the
locally supplied identifier. -/
def witnessWireAuth : WireAuthBody :=
  { accessJwt := "tokX", refreshJwt := "refX", did := "did:plc:server",
    handle := some "server.handle" }

/-- The record `authenticateBluesky` persists for `witnessWireAuth` when
the local identifier is `local.id`. -/
def witnessConfigX : Config :=
  { blueskySession :=
    { accessJwt := "tokX", refreshJwt := "refX",
      handle := "local.id", did := "did:plc:server" } }

/-- Counterexample to C5 as stated: the server declares handle
`server.handle`, yet the persisted session's handle is the locally
supplied `local.id` — the Go `BlueskyAuthResponse` struct has no handle
field, so the server's handle never takes precedence. -/
theorem claim_C5_counterexample :
    (authenticateBluesky none [] (Except.ok ("local.id", "pw"))
        [AuthWire.http 200 "resp" (some witnessWireAuth)] []).2.1 =
      some witnessConfigX ∧
    witnessConfigX.blueskySession.handle = "local.id" ∧
    witnessWireAuth.handle = some "server.handle" ∧
    ("local.id" : String) ≠ "server.handle" := by
  refine ⟨by decide, by decide, by decide, by decide⟩

/-- Claim C5 as amended: every successful credential exchange — reached
with no stored refresh token, or by falling through after a stored
session's refresh exchange failed (main.go line 200) — persists a
session whose handle is the locally supplied identifier, regardless of
any server-declared handle (which the response decoder drops). -/
theorem claim_C5_amended (store : Option Config) (rw : List RefreshWire)
    (identifier appPassword : String) (wr : WireAuthBody) (body : String)
    (awRest : List AuthWire) (sf : List Bool)
    (hsf : sf.headD false = false) :
    ((LoadConfig store).blueskySession.refreshJwt = "" →
      authenticateBluesky store rw (Except.ok (identifier, appPassword))
          (AuthWire.http 200 body (some wr) :: awRest) sf =
        (AuthResult.ok, some (newSessionConfig identifier (decodeBlueskyAuthResponse wr)),
          [Event.authCall identifier,
           Event.saveCall (newSessionConfig identifier (decodeBlueskyAuthResponse wr))])) ∧
    (∀ er : RefreshErr, (LoadConfig store).blueskySession.refreshJwt ≠ "" →
      refreshBlueskyToken (LoadConfig store).blueskySession.refreshJwt
        (rw.headD (RefreshWire.netErr "no response")) = Except.error er →
      authenticateBluesky store rw (Except.ok (identifier, appPassword))
          (AuthWire.http 200 body (some wr) :: awRest) sf =
        (AuthResult.ok, some (newSessionConfig identifier (decodeBlueskyAuthResponse wr)),
          [Event.refreshCall (LoadConfig store).blueskySession.refreshJwt,
           Event.authCall identifier,
           Event.saveCall (newSessionConfig identifier (decodeBlueskyAuthResponse wr))])) ∧
    (newSessionConfig identifier (decodeBlueskyAuthResponse wr)).blueskySession.handle =
      identifier := by
  have hsf' : sf.head?.getD false = false := by simpa using hsf
  refine ⟨fun hrefEmpty => ?_, fun er hrefNe hrf => ?_, rfl⟩
  · simp [authenticateBluesky, hrefEmpty, authenticateWithPrompt,
      authenticateWithCredentials, SaveConfig, hsf']
  · have hrf' : refreshBlueskyToken (LoadConfig store).blueskySession.refreshJwt
        (rw.head?.getD (RefreshWire.netErr "no response")) = Except.error er := by
      simpa using hrf
    simp [authenticateBluesky, hrefNe, hrf', authenticateWithPrompt,
      authenticateWithCredentials, SaveConfig, hsf']

/-- Witness for the amended C5: with no stored session, and again when a
stored session's refresh is rejected and the code falls through to the
credential exchange, the persisted handle is the local identifier even
though the server declared `server.handle`. -/
theorem claim_C5_witness :
    (authenticateBluesky none [] (Except.ok ("alice.example", "pw"))
        [AuthWire.http 200 "resp" (some witnessWireAuth)] [] =
      (AuthResult.ok,
        some (newSessionConfig "alice.example" (decodeBlueskyAuthResponse witnessWireAuth)),
        [Event.authCall "alice.example",
         Event.saveCall
           (newSessionConfig "alice.example" (decodeBlueskyAuthResponse witnessWireAuth))])) ∧
    (authenticateBluesky (some witnessConfig) [RefreshWire.http 400 "stale" none]
        (Except.ok ("alice.example", "pw"))
        [AuthWire.http 200 "resp" (some witnessWireAuth)] [] =
      (AuthResult.ok,
        some (newSessionConfig "alice.example" (decodeBlueskyAuthResponse witnessWireAuth)),
        [Event.refreshCall "refA", Event.authCall "alice.example",
         Event.saveCall
           (newSessionConfig "alice.example" (decodeBlueskyAuthResponse witnessWireAuth))])) ∧
    (newSessionConfig "alice.example"
      (decodeBlueskyAuthResponse witnessWireAuth)).blueskySession.handle = "alice.example" := by
  refine ⟨?_, ?_, ?_⟩
  · exact (claim_C5_amended none [] "alice.example" "pw" witnessWireAuth "resp" [] []
      (by decide)).1 (by decide)
  · have h := (claim_C5_amended (some witnessConfig) [RefreshWire.http 400 "stale" none]
      "alice.example" "pw" witnessWireAuth "resp" [] [] (by decide)).2.1
      (RefreshErr.badStatus 400 "stale") (by decide) (by rfl)
    rw [h]; decide
  · exact (claim_C5_amended none [] "alice.example" "pw" witnessWireAuth "resp" [] []
      (by decide)).2.2

/-! ### Claim C7: store round trips -/

/-- Counterexample to C7 as stated: with no session record,
`SaveConfig(LoadConfig())` writes the zero-value record — the store does
not remain absent. -/
theorem claim_C7_counterexample :
    SaveConfig (LoadConfig none) false none = Except.ok (some (LoadConfig none)) ∧
    (some (LoadConfig none) : Option Config) ≠ none := by
  refine ⟨rfl, by decide⟩

/-- Claim C7 as amended: loading immediately after a successful save of
any Session `s` returns `s` unchanged; and with no record present,
`save(load())` persists the zero-value (empty-session) record rather
than leaving the store absent — an observational no-op only, in that
loading the written record yields the same Config as loading the absent
store. -/
theorem claim_C7_amended (s : Config) (store : Option Config) :
    (SaveConfig s false store = Except.ok (some s) ∧ LoadConfig (some s) = s) ∧
    (SaveConfig (LoadConfig none) false none = Except.ok (some (LoadConfig none)) ∧
     LoadConfig (some (LoadConfig none)) = LoadConfig none) := by
  refine ⟨⟨rfl, rfl⟩, rfl, rfl⟩
